import Mathlib

/-!
Verification development for `mib2zarr.py`, a batch converter of MIB raw
detector data to zarr/zspy containers.  The definitions below are a shallow
embedding of the pure decision logic of the script: the filename/suffix
handling of `pathlib`, the recursive file discovery (`get_mib_files`), the
sidecar JSON loader (`get_metadata_from_json`), the auxiliary-file collector
(`load_aux_data`), the parameter and chunk resolution inside `mib2zarr`, the
pre-flight destination/mode checks, the lineskip inflation/slicing around the
external loader, and the wildcard/batch dispatch.  External collaborators
(the hyperspy loader `hs.load`, the saver, the archiver) are abstracted as
function parameters or outcome data, exactly as the spec treats them.

File sizes are carried in bytes; the script compares `st_size / 1e6` against
integer MB thresholds, which we model exactly as `size ≥ t * 1000000`
(resp. `<` for the auxiliary ceiling).
-/

/-- Model of `pathlib`'s final-component handling: the index of the last
`.` in a file name, if any. -/
def lastDotIdx (cs : List Char) : Option Nat :=
  ((List.range cs.length).filter (fun i => cs.getD i ' ' == '.')).getLast?

/-- `pathlib.PurePath.suffix`: the extension of the final component.  A name
whose only dot is leading or trailing has no suffix. -/
def pathSuffix (name : String) : String :=
  let cs := name.data
  match lastDotIdx cs with
  | some i => if 0 < i ∧ i < cs.length - 1 then ⟨cs.drop i⟩ else ""
  | none => ""

/-- `pathlib.PurePath.stem`: the final component without its suffix. -/
def pathStem (name : String) : String :=
  let cs := name.data
  match lastDotIdx cs with
  | some i => if 0 < i ∧ i < cs.length - 1 then ⟨cs.take i⟩ else name
  | none => name

/-- The module constant `_MIN_MIB_FILESIZE` (MB). -/
def MIN_MIB_FILESIZE : Nat := 100

/-- The module constant `_MAX_AUX_FILESIZE` (MB). -/
def MAX_AUX_FILESIZE : Nat := 5

/-- The module constant `_SUPPORTED_FILES`. -/
def SUPPORTED_FILES : List String := [".dm3", ".dm4", ".png", ".jpg", ".mib"]

/-- A filesystem entry as seen by `get_mib_files`: a regular file with its
name and `st_size` in bytes, or a directory with its children (the order of
`Path.iterdir`). -/
inductive Entry where
  | file (name : String) (size : Nat)
  | dir (name : String) (children : List Entry)

mutual

/-- `get_mib_files(path, minimum_filesize)` from `mib2zarr.py` (lines
179–208).  Note that the body filters with the module constant
`_MIN_MIB_FILESIZE` rather than the `minimum_filesize` parameter, and the
recursive call on a subdirectory passes no threshold at all (so it uses the
default); the embedding reproduces both facts. -/
def get_mib_files (path : Entry) (minimum_filesize : Nat) : List Entry :=
  match path with
  | .file n sz => if pathSuffix n == ".mib" then [.file n sz] else []
  | .dir _ children => get_mib_files_loop children

/-- The `for p in path.iterdir()` loop body of `get_mib_files`. -/
def get_mib_files_loop (children : List Entry) : List Entry :=
  match children with
  | [] => []
  | p :: rest =>
    (match p with
     | .dir n cs => get_mib_files (.dir n cs) MIN_MIB_FILESIZE
     | .file n sz =>
        if pathSuffix n == ".mib" ∧ sz ≥ MIN_MIB_FILESIZE * 1000000
        then [Entry.file n sz] else []) ++
    get_mib_files_loop rest

end

/-- The Python exception classes that the embedded fragments can raise or
catch. -/
inductive PErr where
  | fileNotFoundError
  | jsonDecodeError
  | valueError
  | typeError
  | otherError
deriving DecidableEq, Repr

/-- A JSON scalar/array value as stored in a sidecar file.  A float is
modelled as the exact rational `num / den` (`den` positive); an array is
restricted to the integer arrays the script consumes
(`navigation_shape: [x, y]`). -/
inductive JVal where
  | jint (n : Int)
  | jfloat (num : Int) (den : Nat)
  | jstr (s : String)
  | jlist (l : List Int)
  | jnull
deriving DecidableEq, Repr

/-- The value of a non-empty decimal digit string, most significant digit
first; `none` on any non-digit character. -/
def digitsVal (cs : List Char) (acc : Nat) : Option Nat :=
  match cs with
  | [] => some acc
  | c :: rest =>
    if c.isDigit then digitsVal rest (acc * 10 + (c.toNat - 48)) else none

/-- Python's `int` applied to a string: an optional leading `-` followed by
at least one decimal digit; anything else raises `ValueError`. -/
def pyStrToInt (s : String) : Option Int :=
  match s.data with
  | [] => none
  | '-' :: rest =>
    match rest with
    | [] => none
    | _ => (digitsVal rest 0).map (fun n => -(n : Int))
  | cs => (digitsVal cs 0).map (fun n => (n : Int))

/-- Python's `int(x)` on a JSON value: identity on integers, truncation
toward zero on floats (`Int.tdiv` is T-division, like Python's `int`),
decimal-string parsing on strings (failure raises `ValueError`), and
`TypeError` on arrays and `null`. -/
def pyInt : JVal → Except PErr Int
  | .jint n => .ok n
  | .jfloat num den => .ok (Int.tdiv num (den : Int))
  | .jstr s =>
      match pyStrToInt s with
      | some n => .ok n
      | none => .error .valueError
  | .jlist _ => .error .typeError
  | .jnull => .error .typeError

/-- Python's `tuple(x)` as used on `navigation_shape`: an array becomes the
tuple of its elements; the non-iterable scalars raise `TypeError` (a string
value is not meaningful as a shape and is modelled as the same error). -/
def pyTuple : JVal → Except PErr (List Int)
  | .jlist l => .ok l
  | _ => .error .typeError

/-- `get_metadata_from_json(path)` (lines 68–87).  The filesystem is
abstracted to whether `path.is_file() and path.exists()` holds and to the
outcome of `json.load(path.open("r"))`.  Only `FileNotFoundError` is caught
(falling through to `return {}`); every other exception propagates. -/
def get_metadata_from_json (isFileAndExists : Bool)
    (loadResult : Except PErr (List (String × JVal))) :
    Except PErr (List (String × JVal)) :=
  if isFileAndExists then
    match loadResult with
    | .ok parameters => .ok parameters
    | .error .fileNotFoundError => .ok []
    | .error e => .error e
  else .ok []

/-- The navigation-shape / lineskip fields of the resolved configuration. -/
structure ResolvedParams where
  navigation_shape : Option (List Int)
  lineskip : Int
deriving DecidableEq, Repr

/-- Lines 349–352 of `mib2zarr`: `parameters.get` with the caller value as
fallback, `tuple(...)` on a present navigation shape, `int(...)` on the
lineskip.  The sidecar dictionary is abstracted as a lookup function. -/
def resolve_params (parameters : String → Option JVal)
    (navigation_shape : Option (List Int)) (lineskip : Int) :
    Except PErr ResolvedParams :=
  let navGet : Except PErr (Option (List Int)) :=
    match parameters "navigation_shape" with
    | some v => Except.map some (pyTuple v)
    | none => Except.ok navigation_shape
  match navGet with
  | .error e => .error e
  | .ok nav =>
    match (match parameters "lineskip" with
           | some v => pyInt v
           | none => Except.ok lineskip) with
    | .error e => .error e
    | .ok ls => .ok ⟨nav, ls⟩

/-- Lines 354–362 of `mib2zarr`: chunk resolution.
`chunks = (chunks[0],) * nav_dim + (chunks[1],) * 2`, with `nav_dim = 2`
when no navigation shape was resolved. -/
def resolve_chunks (chunks : Option (Nat × Nat))
    (navigation_shape : Option (List Int)) : List Nat :=
  let c := match chunks with | none => (32, 256) | some t => t
  let nav_dim := match navigation_shape with | none => 2 | some ns => ns.length
  List.replicate nav_dim c.1 ++ List.replicate 2 c.2

/-- A loaded hyperspy signal as seen by `load_aux_data`: only the axis
dimensionalities matter there. -/
structure HSSignal where
  signalShape : List Nat
  navigationShape : List Nat
deriving DecidableEq, Repr

/-- One directory entry seen by `load_aux_data`: its name, whether it is a
regular file, its size in bytes, and the outcome of `hs.load` on it (the
external decoder is abstracted as data). -/
structure AuxFile where
  name : String
  isFile : Bool
  size : Nat
  loadResult : Except PErr HSSignal

/-- Python dict assignment `d[k] = v`: replace in place, else append. -/
def dictSet (d : List (String × HSSignal)) (k : String) (v : HSSignal) :
    List (String × HSSignal) :=
  if d.any (fun kv => kv.1 == k) then
    d.map (fun kv => if kv.1 == k then (k, v) else kv)
  else d ++ [(k, v)]

/-- `p.name.replace(" ", "_")`. -/
def replaceSpaces (s : String) : String :=
  ⟨s.data.map (fun c => if c == ' ' then '_' else c)⟩

/-- The `for p in directory.iterdir()` loop of `load_aux_data` (lines
130–152), accumulating into `aux_data`.  There is no exception handling
around `hs.load`: a load failure propagates immediately. -/
def load_aux_data_loop (aux_data : List (String × HSSignal))
    (entries : List AuxFile) (max_filesize : Nat) (supported_files : List String) :
    Except PErr (List (String × HSSignal)) :=
  match entries with
  | [] => .ok aux_data
  | p :: rest =>
    if p.isFile ∧ pathSuffix p.name ∈ supported_files ∧
        p.size < max_filesize * 1000000 then
      match p.loadResult with
      | .error e => .error e
      | .ok s =>
        if s.signalShape.length = 0 ∧ s.navigationShape.length = 0 then
          load_aux_data_loop aux_data rest max_filesize supported_files
        else
          load_aux_data_loop (dictSet aux_data (replaceSpaces p.name) s)
            rest max_filesize supported_files
    else load_aux_data_loop aux_data rest max_filesize supported_files

/-- `load_aux_data(directory, max_filesize, supported_files)` (lines
110–153), with the directory abstracted as its `iterdir` listing. -/
def load_aux_data (entries : List AuxFile) (max_filesize : Nat)
    (supported_files : List String) : Except PErr (List (String × HSSignal)) :=
  load_aux_data_loop [] entries max_filesize supported_files

/-- `True` for a successful `Except`. -/
def exceptOk {ε α : Type} : Except ε α → Bool
  | .ok _ => true
  | .error _ => false

/-- The output paths of one per-file conversion outcome (`[]` for a failed
one). -/
def convOuts {ε : Type} : Except ε (List String) → List String
  | .ok outs => outs
  | .error _ => []

/-- Concatenation of the images of `f` over a list, written out so that the
loop structure of the source is mirrored literally. -/
def listFlatMap {α β : Type} (f : α → List β) : List α → List β
  | [] => []
  | a :: rest => f a ++ listFlatMap f rest

/-- The directory branch of `mib2zarr` (lines 286–308): iterate over the
discovered files, `try` the single-file conversion, catch and log any
exception, and accumulate the successful output lists.  The single-file
conversion is abstracted as its outcome per file. -/
def batch_convert (convert : Entry → Except PErr (List String)) :
    List Entry → List String
  | [] => []
  | p :: rest =>
    (match convert p with
     | .ok outs => outs
     | .error _ => []) ++ batch_convert convert rest

/-- A filesystem side effect performed by the pre-flight checks of the
single-file branch: probing whether a destination path exists. -/
inductive FsEvent where
  | probeExists (path : String)
deriving DecidableEq, Repr

/-- How the pre-flight phase of the single-file branch ends. -/
inductive PreflightOutcome where
  | raisedDestinationExists (path : String)
  | raisedBothZzipZstore
  | proceed
deriving DecidableEq, Repr

/-- Lines 310–332 of `mib2zarr`: the single-file pre-flight checks, in
source order, recording every filesystem existence probe.  `zarr.exists()`
is only evaluated when `overwrite` is false (Python `and` short-circuits),
and the `zzip and zstore` check runs after the primary destination check. -/
def mib2zarr_preflight (fsExists : String → Bool) (stem : String)
    (zzip zstore overwrite : Bool) : List FsEvent × PreflightOutcome :=
  let zarr := stem ++ ".zspy"
  let ev1 : List FsEvent := if overwrite then [] else [.probeExists zarr]
  let hit1 := !overwrite && fsExists zarr
  if hit1 then (ev1, .raisedDestinationExists zarr)
  else if zzip && zstore then (ev1, .raisedBothZzipZstore)
  else if zzip || zstore then
    let zzarr := stem ++ (if zzip then "-zip" else "-zstore") ++ ".zspy"
    let ev2 : List FsEvent := if overwrite then [] else [.probeExists zzarr]
    let hit2 := !overwrite && fsExists zzarr
    if hit2 then (ev1 ++ ev2, .raisedDestinationExists zzarr)
    else (ev1 ++ ev2, .proceed)
  else (ev1, .proceed)

/-- Lines 365–368 of `mib2zarr`: the navigation shape actually passed to
`hs.load` — inflated by `lineskip` along the first axis when a shape is
known and `lineskip > 0`, otherwise passed through unchanged. -/
def inflated_nav_shape (navigation_shape : Option (Nat × Nat))
    (lineskip : Nat) : Option (Nat × Nat) :=
  if 0 < lineskip then
    match navigation_shape with
    | some ns => some (ns.1 + lineskip, ns.2)
    | none => none
  else navigation_shape

/-- The length of the Python slice `xs[:stop]` over a sequence of length
`size`, where `stop` may be negative. -/
def pySliceLen (size : Nat) (stop : Int) : Nat :=
  if stop < 0 then ((size : Int) + stop).toNat else min stop.toNat size

/-- Lines 364–373 of `mib2zarr`: invoke the external loader with the
(possibly inflated) navigation shape, then slice
`s.inav[: s.axes_manager[0].size - lineskip, :]` when `lineskip > 0`.
The loader is abstracted as a function from the forced navigation shape to
the loaded array's first navigation-axis size; the result is the first
navigation-axis size of the signal that proceeds to saving. -/
def load_and_slice (loader : Option (Nat × Nat) → Nat)
    (navigation_shape : Option (Nat × Nat)) (lineskip : Nat) : Nat :=
  let s := loader (inflated_nav_shape navigation_shape lineskip)
  if 0 < lineskip then pySliceLen s ((s : Int) - (lineskip : Int)) else s

/-- One match returned by `datapath.parent.expanduser().glob(datapath.name)`:
its final-component name and whether it is a directory. -/
structure GlobMatch where
  name : String
  isDir : Bool

/-- The `for p in paths` loop of the wildcard branch (lines 266–283): a
match is converted when it is a directory or has the `.mib` suffix, and is
skipped otherwise; results are concatenated. -/
def wildcard_convert (convert : GlobMatch → List String) :
    List GlobMatch → List String
  | [] => []
  | p :: rest =>
    (if p.isDir || pathSuffix p.name == ".mib" then convert p else []) ++
    wildcard_convert convert rest

/-- `"*" in datapath.stem` — the wildcard-detection test at line 262. -/
def hasStarChar (s : String) : Bool := s.data.contains '*'

/-- The top-level dispatch of `mib2zarr` (lines 262–284): when the stem of
the data path contains `*`, glob the parent directory and convert each
qualifying match; otherwise fall through to the literal-path behaviour,
abstracted here as `literalResult`. -/
def mib2zarr_dispatch (datapathName : String) (globMatches : List GlobMatch)
    (convert : GlobMatch → List String) (literalResult : List String) :
    List String :=
  if hasStarChar (pathStem datapathName) then wildcard_convert convert globMatches
  else literalResult

theorem pySliceLen_sub_of_le (size k : Nat) (h : k ≤ size) :
    pySliceLen size ((size : Int) - (k : Int)) = size - k := by
  unfold pySliceLen
  split
  · omega
  · omega

theorem wildcard_convert_eq_filter (convert : GlobMatch → List String)
    (ms : List GlobMatch) :
    wildcard_convert convert ms =
      listFlatMap convert
        (ms.filter (fun p => p.isDir || pathSuffix p.name == ".mib")) := by
  induction ms with
  | nil => rfl
  | cons p rest ih =>
    cases hcond : (p.isDir || pathSuffix p.name == ".mib") <;>
      simp [wildcard_convert, List.filter_cons, hcond, listFlatMap, ih]

/-- C1: the spec claims `get_mib_files D T` returns exactly the `.mib` files
of `D`'s subtree whose size in MB is at least `T`.  The code instead filters
with the module constant `_MIN_MIB_FILESIZE = 100` and ignores the
`minimum_filesize` parameter (its recursive call also passes no threshold),
contradicting the parameter's own docstring.  At the failing input — a
directory holding `a.mib` of 60 MB, threshold `T = 50` — the claim demands
the file be returned (60 ≥ 50), but the code returns the empty list. -/
theorem get_mib_files_ignores_threshold :
    get_mib_files (Entry.dir "d" [Entry.file "a.mib" 60000000]) 50 = [] ∧
    60000000 ≥ 50 * 1000000 := ⟨rfl, by omega⟩

/-- C2: the spec claims `get_metadata_from_json` catches a JSON parse
failure and returns an empty mapping, never raising to its caller.  The
`except` clause only catches `FileNotFoundError`, so on an existing file
whose contents are unparsable the `json.JSONDecodeError` propagates: the
embedded function returns the error rather than the empty mapping. -/
theorem json_decode_error_propagates :
    get_metadata_from_json true (Except.error PErr.jsonDecodeError) =
      Except.error PErr.jsonDecodeError := rfl

/-- C4: in directory (batch) mode, a per-file exception is caught and the
remaining files are still processed; the return value is the concatenation
of the per-file output lists of exactly the files whose conversion
succeeded. -/
theorem batch_convert_returns_successful_concat
    (convert : Entry → Except PErr (List String)) (files : List Entry) :
    batch_convert convert files =
      listFlatMap (fun p => convOuts (convert p))
        (files.filter (fun p => exceptOk (convert p))) := by
  induction files with
  | nil => rfl
  | cons p rest ih =>
    cases h : convert p with
    | ok outs =>
      simp [batch_convert, List.filter_cons, exceptOk, convOuts, h, ih,
        listFlatMap]
    | error e =>
      simp [batch_convert, List.filter_cons, exceptOk, convOuts, h, ih]

/-- C6: with a navigation shape of length 2 and caller chunks `(32, 256)`
the resolved chunk tuple is `(32, 32, 256, 256)`; with no navigation shape
the navigation-dimension count defaults to 2 and the same tuple results;
in general the resolved tuple's length is the navigation-dimension count
plus 2. -/
theorem chunk_expansion (n0 n1 : Int) :
    resolve_chunks (some (32, 256)) (some [n0, n1]) = [32, 32, 256, 256] ∧
    resolve_chunks (some (32, 256)) none = [32, 32, 256, 256] ∧
    ∀ (chunks : Option (Nat × Nat)) (ns : Option (List Int)),
      (resolve_chunks chunks ns).length =
        (match ns with | none => 2 | some l => l.length) + 2 := by
  refine ⟨rfl, rfl, ?_⟩
  intro chunks ns
  cases chunks <;> cases ns <;> simp [resolve_chunks]

/-- C3 counterexample: a directory whose first qualifying auxiliary file
fails to load.  The claim says the failure is logged and skipped and the
mapping from the other qualifying files (`good.png`) is still returned; the
code has no exception handling around `hs.load`, so the error propagates
and nothing is returned. -/
theorem aux_load_failure_aborts_collection_counterexample :
    load_aux_data
      [⟨"bad.png", true, 1000, Except.error PErr.otherError⟩,
       ⟨"good.png", true, 1000, Except.ok ⟨[256, 256], [10]⟩⟩]
      MAX_AUX_FILESIZE SUPPORTED_FILES = Except.error PErr.otherError := rfl

/-- C3 (amended): a failure while loading one individual auxiliary file
aborts the whole collection — the exception propagates out of
`load_aux_data` and no mapping is returned; fault isolation for such a
failure happens only at the batch level, where the conversion of the whole
raw file is skipped. -/
theorem aux_load_failure_aborts_collection (p : AuxFile) (rest : List AuxFile)
    (max_filesize : Nat) (supported_files : List String) (e : PErr)
    (hfile : p.isFile = true)
    (hsup : pathSuffix p.name ∈ supported_files)
    (hsize : p.size < max_filesize * 1000000)
    (herr : p.loadResult = Except.error e) :
    load_aux_data (p :: rest) max_filesize supported_files =
      Except.error e := by
  simp [load_aux_data, load_aux_data_loop, hfile, hsup, hsize, herr]

theorem aux_load_failure_aborts_collection_witness :
    load_aux_data [⟨"b a.png", true, 1000, Except.error PErr.valueError⟩]
      5 SUPPORTED_FILES = Except.error PErr.valueError :=
  aux_load_failure_aborts_collection _ [] 5 SUPPORTED_FILES PErr.valueError
    rfl (by decide) (by decide) rfl

/-- C5 counterexample: with both `zzip` and `zstore` selected (and the
default `overwrite=False`, no pre-existing destination), the mutual-
exclusion error is indeed raised — but only after the primary
destination-existence probe `zarr.exists()` has already run, contradicting
the claim that the configuration error precedes any destination-existence
probe of the filesystem. -/
theorem both_modes_probe_precedes_error :
    (mib2zarr_preflight (fun _ => false) "a" true true false).1 =
      [FsEvent.probeExists "a.zspy"] ∧
    (mib2zarr_preflight (fun _ => false) "a" true true false).2 =
      PreflightOutcome.raisedBothZzipZstore := ⟨rfl, rfl⟩

/-- C5 (amended): with both `zzip` and `zstore` selected, the
mutual-exclusion configuration error is raised before any loading or
conversion I/O — provided the primary destination does not already exist
(otherwise the destination-exists error fires first) — but when `overwrite`
is not set it is raised only after the primary destination-existence probe,
which is the sole filesystem access performed before the error. -/
theorem both_modes_error_before_load (fsExists : String → Bool)
    (stem : String) (overwrite : Bool)
    (hmiss : overwrite = true ∨ fsExists (stem ++ ".zspy") = false) :
    (mib2zarr_preflight fsExists stem true true overwrite).2 =
      PreflightOutcome.raisedBothZzipZstore ∧
    (mib2zarr_preflight fsExists stem true true overwrite).1 =
      (if overwrite then []
       else [FsEvent.probeExists (stem ++ ".zspy")]) := by
  rcases hmiss with h | h <;> simp [mib2zarr_preflight, h]

theorem both_modes_error_before_load_witness :
    (mib2zarr_preflight (fun _ => false) "b" true true true).2 =
      PreflightOutcome.raisedBothZzipZstore :=
  (both_modes_error_before_load (fun _ => false) "b" true (Or.inl rfl)).1

/-- C7: with a known navigation shape `(n0, n1)` and `lineskip = k > 0`,
the external loader receives the inflated shape `(n0 + k, n1)`, and — for
any loader that honours a forced navigation shape — the post-load slice
leaves the first navigation axis with length `n0`. -/
theorem lineskip_inflates_then_slices (loader : Option (Nat × Nat) → Nat)
    (hloader : ∀ ns : Nat × Nat, loader (some ns) = ns.1)
    (n0 n1 k : Nat) (hk : 0 < k) :
    inflated_nav_shape (some (n0, n1)) k = some (n0 + k, n1) ∧
    load_and_slice loader (some (n0, n1)) k = n0 := by
  refine ⟨by simp [inflated_nav_shape, hk], ?_⟩
  simp only [load_and_slice, inflated_nav_shape, if_pos hk, hloader]
  rw [pySliceLen_sub_of_le _ _ (by omega)]
  omega

theorem lineskip_inflates_then_slices_witness :
    inflated_nav_shape (some (10, 5)) 2 = some (12, 5) ∧
    load_and_slice (fun ns => match ns with | some t => t.1 | none => 0)
      (some (10, 5)) 2 = 10 :=
  lineskip_inflates_then_slices _ (fun _ => rfl) 10 5 2 (by decide)

/-- C8: parameter resolution takes `navigation_shape` and `lineskip` from
the sidecar JSON when the keys are present and from the caller-supplied
defaults otherwise, and the lineskip value is passed through `int(...)`, so
a sidecar float (truncated toward zero) or integer string is coerced to an
integer. -/
theorem resolve_params_sidecar_overrides (J : String → Option JVal)
    (P_nav : Option (List Int)) (P_ls : Int)
    (navR : Option (List Int)) (lsR : Int)
    (hnav : (J "navigation_shape" = none ∧ navR = P_nav) ∨
            (∃ l, J "navigation_shape" = some (JVal.jlist l) ∧ navR = some l))
    (hls : (J "lineskip" = none ∧ lsR = P_ls) ∨
           (∃ v, J "lineskip" = some v ∧ pyInt v = Except.ok lsR)) :
    resolve_params J P_nav P_ls = Except.ok ⟨navR, lsR⟩ ∧
    pyInt (JVal.jfloat 7 2) = Except.ok 3 ∧
    pyInt (JVal.jstr "42") = Except.ok 42 := by
  refine ⟨?_, rfl, rfl⟩
  rcases hnav with ⟨h1, h2⟩ | ⟨l, h1, h2⟩ <;>
    rcases hls with ⟨g1, g2⟩ | ⟨v, g1, g2⟩ <;>
      simp [resolve_params, pyTuple, Except.map, h1, h2, g1, g2]

theorem resolve_params_sidecar_overrides_witness :
    resolve_params
      (fun k => if k == "navigation_shape" then some (JVal.jlist [4, 4])
                else if k == "lineskip" then some (JVal.jstr "3") else none)
      (some [9, 9]) 0 = Except.ok ⟨some [4, 4], 3⟩ :=
  (resolve_params_sidecar_overrides _ (some [9, 9]) 0 (some [4, 4]) 3
    (Or.inr ⟨[4, 4], rfl, rfl⟩) (Or.inr ⟨JVal.jstr "3", rfl, rfl⟩)).1

/-- C9 counterexample: the path name `a.m*b` carries the wildcard `*` in
its final path segment, yet `pathlib` puts that `*` in the suffix, not the
stem, and the code tests `"*" in datapath.stem` — so the path is treated as
a literal path (the fall-through branch), not as a glob pattern, and the
glob matches are never consulted. -/
theorem wildcard_in_suffix_treated_literally :
    hasStarChar "a.m*b" = true ∧
    mib2zarr_dispatch "a.m*b" [⟨"m.mib", false⟩] (fun _ => ["globbed"])
      ["literal"] = ["literal"] := ⟨rfl, rfl⟩

/-- C9 (amended): when the *stem* of the final path segment (the segment
without its extension) contains the character `*`, the path is treated as a
glob pattern against the parent directory, and each match that is a
directory or has the `.mib` suffix is converted independently with results
concatenated; other matches are skipped. -/
theorem star_in_stem_triggers_glob (datapathName : String)
    (globMatches : List GlobMatch) (convert : GlobMatch → List String)
    (literalResult : List String)
    (hstar : hasStarChar (pathStem datapathName) = true) :
    mib2zarr_dispatch datapathName globMatches convert literalResult =
      listFlatMap convert
        (globMatches.filter
          (fun p => p.isDir || pathSuffix p.name == ".mib")) := by
  simp [mib2zarr_dispatch, hstar, wildcard_convert_eq_filter]

theorem star_in_stem_triggers_glob_witness :
    mib2zarr_dispatch "r*"
      [⟨"run1", true⟩, ⟨"x.txt", false⟩, ⟨"y.mib", false⟩]
      (fun p => [p.name]) ["literal"] = ["run1", "y.mib"] :=
  star_in_stem_triggers_glob "r*" _ _ _ rfl

/-- C10: with `lineskip = k > 0` and no resolved navigation shape, the
loader is invoked with no forced shape (no inflation), yet the post-load
slice still removes `k` trailing frames: the saved array's first
navigation axis is `k` shorter than the loader-inferred length. -/
theorem lineskip_slices_without_inflation (loader : Option (Nat × Nat) → Nat)
    (k : Nat) (hk : 0 < k) (hsize : k ≤ loader none) :
    inflated_nav_shape none k = none ∧
    load_and_slice loader none k = loader none - k := by
  refine ⟨by simp [inflated_nav_shape], ?_⟩
  simp only [load_and_slice, inflated_nav_shape, if_pos hk]
  exact pySliceLen_sub_of_le _ _ hsize

theorem lineskip_slices_without_inflation_witness :
    inflated_nav_shape none 2 = none ∧
    load_and_slice (fun _ => 7) none 2 = 5 :=
  lineskip_slices_without_inflation (fun _ => 7) 2 (by decide) (by decide)
